import Mathlib

/-
Verification development for the amz-ssh repository.

The Go sources are shallowly embedded as executable Lean definitions:
  * pure control flow becomes a Lean function of the same shape;
  * network / cloud calls become explicit parameters holding the result the
    call would have produced (an `Except`/`Option` for fallible calls);
  * `rand.Intn n` becomes `r % n` for an arbitrary oracle value `r`, with the
    `n = 0` case modelled as a distinct `crash` outcome, since the Go function
    panics there;
  * goroutines spawned per accepted connection become independent evaluations
    of the per-connection body.
-/

namespace AmzSsh

/-! ## Small string helpers shared by the embeddings -/

/-- Model of `aws.ToString : *string -> string` — dereference, `""` for nil. -/
def awsToString : Option String → String
  | some s => s
  | none => ""

/-- Model of Go `strings.Split s sep` for a one-character separator. -/
def splitOnChar (sep : Char) : List Char → List (List Char)
  | [] => [[]]
  | c :: rest =>
    let r := splitOnChar sep rest
    if c = sep then [] :: r
    else
      match r with
      | h :: t => (c :: h) :: t
      | [] => [[c]]

/-- Go `strings.Split` on `String`, one-character separator. -/
def goSplit (sep : Char) (s : String) : List String :=
  (splitOnChar sep s.data).map String.mk

/-- Does `sub` occur at the start of `hay`? -/
def startsSub : List Char → List Char → Bool
  | [], _ => true
  | _ :: _, [] => false
  | a :: as, b :: bs => a == b && startsSub as bs

/-- Does `sub` occur somewhere inside `hay`? -/
def hasSub (sub : List Char) : List Char → Bool
  | [] => sub.isEmpty
  | c :: rest => startsSub sub (c :: rest) || hasSub sub rest

/-- Substring containment on `String`, used to state "the error message is
annotated with the hop's address". -/
def strContains (hay sub : String) : Bool :=
  hasSub sub.data hay.data

/-- Model of Go `strconv.Atoi`, as used with its error ignored: the parsed
value on success and `0` on any parse failure. -/
def goAtoi (s : String) : Int :=
  let digits : List Char → Option Nat := fun l =>
    if l.isEmpty then none
    else if l.all Char.isDigit then
      some (l.foldl (fun acc c => acc * 10 + (c.toNat - 48)) 0)
    else none
  match s.data with
  | '-' :: rest =>
    match digits rest with
    | some n => -(n : Int)
    | none => 0
  | '+' :: rest =>
    match digits rest with
    | some n => (n : Int)
    | none => 0
  | l =>
    match digits l with
    | some n => (n : Int)
    | none => 0

/-! ## Instance resolver (`main.go`, `resolveBastionInstanceID`)

The two cloud queries are passed in as the values they would return:
`DescribeSpotInstanceRequests` yields a list of spot requests (each carrying a
nullable instance id), `DescribeInstances` yields a list of reservations, each
holding a list of instances (again nullable ids).  Either call may instead
fail, hence the `Except`.  `r1`/`r2` are the values drawn from the random
source for the first and second `rand.Intn` call of the executed path. -/

/-- One element of `DescribeSpotInstanceRequestsOutput.SpotInstanceRequests`. -/
structure SpotRequest where
  instanceId : Option String
  deriving DecidableEq, Repr

/-- One element of `DescribeInstancesOutput.Reservations`: its instances,
each represented by its nullable `InstanceId`. -/
structure Reservation where
  instances : List (Option String)
  deriving DecidableEq, Repr

/-- Outcome of `resolveBastionInstanceID`: a returned id, a returned error,
or a runtime panic (`rand.Intn(0)` on an empty instance list). -/
inductive ResolveOutcome
  | ok (id : String)
  | err (msg : String)
  | crash
  deriving DecidableEq, Repr

/-- Embedding of `resolveBastionInstanceID` (main.go:190-213). -/
def resolveBastionInstanceID (spotQuery : Except String (List SpotRequest))
    (instQuery : Except String (List Reservation)) (r1 r2 : Nat) :
    ResolveOutcome :=
  match spotQuery with
  | .error e => .err e
  | .ok spots =>
    if h : 0 < spots.length then
      .ok (awsToString (spots.get ⟨r1 % spots.length, Nat.mod_lt r1 h⟩).instanceId)
    else
      match instQuery with
      | .error e => .err e
      | .ok rs =>
        if h2 : 0 < rs.length then
          let res := rs.get ⟨r1 % rs.length, Nat.mod_lt r1 h2⟩
          if h3 : 0 < res.instances.length then
            .ok (awsToString (res.instances.get ⟨r2 % res.instances.length, Nat.mod_lt r2 h3⟩))
          else
            .crash
        else
          .err "unable to find any valid bastion instances"

end AmzSsh

namespace AmzSsh

/-! ## Equation lemmas for the resolver -/

/-- Spot path: a non-empty spot set returns the randomly selected element. -/
theorem resolve_spot_eq (spots : List SpotRequest)
    (iq : Except String (List Reservation)) (r1 r2 : Nat)
    (h : 0 < spots.length) :
    resolveBastionInstanceID (Except.ok spots) iq r1 r2 =
      ResolveOutcome.ok
        (awsToString (spots.get ⟨r1 % spots.length, Nat.mod_lt r1 h⟩).instanceId) :=
  dif_pos h

/-- Instance path: empty spot set, non-empty reservation list, selected
reservation non-empty. -/
theorem resolve_inst_eq (rs : List Reservation) (r1 r2 : Nat)
    (h2 : 0 < rs.length)
    (h3 : 0 < (rs.get ⟨r1 % rs.length, Nat.mod_lt r1 h2⟩).instances.length) :
    resolveBastionInstanceID (Except.ok []) (Except.ok rs) r1 r2 =
      ResolveOutcome.ok (awsToString
        ((rs.get ⟨r1 % rs.length, Nat.mod_lt r1 h2⟩).instances.get
          ⟨r2 % (rs.get ⟨r1 % rs.length, Nat.mod_lt r1 h2⟩).instances.length,
           Nat.mod_lt r2 h3⟩)) :=
  (dif_pos h2).trans (dif_pos h3)

/-- Instance path with an empty selected reservation: the code panics. -/
theorem resolve_inst_crash_eq (rs : List Reservation) (r1 r2 : Nat)
    (h2 : 0 < rs.length)
    (h3 : ¬ 0 < (rs.get ⟨r1 % rs.length, Nat.mod_lt r1 h2⟩).instances.length) :
    resolveBastionInstanceID (Except.ok []) (Except.ok rs) r1 r2 =
      ResolveOutcome.crash :=
  (dif_pos h2).trans (dif_neg h3)

/-- Both queries empty: the not-found error. -/
theorem resolve_notfound_eq (rs : List Reservation) (r1 r2 : Nat)
    (h2 : ¬ 0 < rs.length) :
    resolveBastionInstanceID (Except.ok []) (Except.ok rs) r1 r2 =
      ResolveOutcome.err "unable to find any valid bastion instances" :=
  dif_neg h2

/-! ## Claims C1 and C10 -/

/-- Claim C1, counterexample: with no spot requests and one reservation whose
instance list is empty, the resolver does not return the id of any instance —
it panics (`rand.Intn(0)`), so the claim's second case fails as stated. -/
theorem C1_counterexample :
    resolveBastionInstanceID (Except.ok []) (Except.ok [Reservation.mk []]) 0 0 =
      ResolveOutcome.crash := by
  decide

/-- Claim C1 (amended): for a resolver run whose two queries succeed, and
assuming every returned reservation holds at least one instance: a non-empty
spot set yields the id of one of its elements; an empty spot set with a
non-empty reservation list yields the id of an instance of one of the
reservations; and if both are empty the resolver fails with the not-found
error. -/
theorem C1_theorem (spots : List SpotRequest) (rs : List Reservation)
    (r1 r2 : Nat) (hne : ∀ r ∈ rs, r.instances ≠ []) :
    (spots ≠ [] → ∃ sr ∈ spots,
      resolveBastionInstanceID (Except.ok spots) (Except.ok rs) r1 r2 =
        ResolveOutcome.ok (awsToString sr.instanceId))
    ∧ (spots = [] → rs ≠ [] → ∃ r ∈ rs, ∃ io ∈ r.instances,
      resolveBastionInstanceID (Except.ok spots) (Except.ok rs) r1 r2 =
        ResolveOutcome.ok (awsToString io))
    ∧ (spots = [] → rs = [] →
      resolveBastionInstanceID (Except.ok spots) (Except.ok rs) r1 r2 =
        ResolveOutcome.err "unable to find any valid bastion instances") := by
  refine ⟨?_, ?_, ?_⟩
  · intro hs
    have h : 0 < spots.length := List.length_pos.mpr hs
    exact ⟨spots.get ⟨r1 % spots.length, Nat.mod_lt r1 h⟩, List.get_mem _ _ _,
      resolve_spot_eq spots (Except.ok rs) r1 r2 h⟩
  · intro hs hr
    subst hs
    have h2 : 0 < rs.length := List.length_pos.mpr hr
    have h3 : 0 < (rs.get ⟨r1 % rs.length, Nat.mod_lt r1 h2⟩).instances.length :=
      List.length_pos.mpr (hne _ (List.get_mem _ _ _))
    exact ⟨rs.get ⟨r1 % rs.length, Nat.mod_lt r1 h2⟩, List.get_mem _ _ _,
      (rs.get ⟨r1 % rs.length, Nat.mod_lt r1 h2⟩).instances.get
        ⟨r2 % (rs.get ⟨r1 % rs.length, Nat.mod_lt r1 h2⟩).instances.length,
         Nat.mod_lt r2 h3⟩,
      List.get_mem _ _ _, resolve_inst_eq rs r1 r2 h2 h3⟩
  · intro hs hr
    subst hs; subst hr
    exact resolve_notfound_eq [] r1 r2 (by simp)

/-- Claim C1, witness for the amended theorem at a concrete input. -/
theorem C1_witness :
    ∃ r ∈ [Reservation.mk [some "i-x"]], ∃ io ∈ r.instances,
      resolveBastionInstanceID (Except.ok ([] : List SpotRequest))
        (Except.ok [Reservation.mk [some "i-x"]]) 0 0 =
        ResolveOutcome.ok (awsToString io) :=
  (C1_theorem [] [Reservation.mk [some "i-x"]] 0 0 (by decide)).2.1 rfl
    (by decide)

/-- Claim C10: the resolver is total only when every reservation returned by
the running-instances query is non-empty.  If the spot set is empty and the
randomly selected reservation has an empty instance list, the code panics
(`rand.Intn(0)`) instead of returning the not-found error; when every
reservation is non-empty, no panic is possible. -/
theorem C10_theorem (spots : List SpotRequest) (rs : List Reservation)
    (r1 r2 : Nat) (h : 0 < rs.length) :
    ((rs.get ⟨r1 % rs.length, Nat.mod_lt r1 h⟩).instances = [] →
      resolveBastionInstanceID (Except.ok []) (Except.ok rs) r1 r2 =
        ResolveOutcome.crash)
    ∧ ((∀ r ∈ rs, r.instances ≠ []) →
      resolveBastionInstanceID (Except.ok spots) (Except.ok rs) r1 r2 ≠
        ResolveOutcome.crash) := by
  constructor
  · intro hemp
    have h3 : ¬ 0 < (rs.get ⟨r1 % rs.length, Nat.mod_lt r1 h⟩).instances.length := by
      rw [hemp]; simp
    exact resolve_inst_crash_eq rs r1 r2 h h3
  · intro hall
    by_cases hs : 0 < spots.length
    · rw [resolve_spot_eq spots (Except.ok rs) r1 r2 hs]
      simp
    · have hnil : spots = [] := List.length_eq_zero.mp (Nat.eq_zero_of_not_pos hs)
      subst hnil
      have h3 : 0 < (rs.get ⟨r1 % rs.length, Nat.mod_lt r1 h⟩).instances.length :=
        List.length_pos.mpr (hall _ (List.get_mem _ _ _))
      rw [resolve_inst_eq rs r1 r2 h h3]
      simp

/-- Claim C10, witness: concrete panic on an empty reservation. -/
theorem C10_witness :
    resolveBastionInstanceID (Except.ok []) (Except.ok [Reservation.mk [], Reservation.mk [some "i-y"]]) 2 0 =
      ResolveOutcome.crash :=
  (C10_theorem [] [Reservation.mk [], Reservation.mk [some "i-y"]] 2 0
    (by decide)).1 (by decide)

/-! ## EC2 endpoint (`pkg/sshutils/ec2endpoint.go`)

The fields of `ec2types.Instance` the code touches, with nullable (`*string`)
fields as `Option String`. -/

/-- The slice of `ec2types.Instance` used by the endpoint code. -/
structure Instance where
  instanceId : Option String
  privateIpAddress : Option String
  publicIpAddress : Option String
  availabilityZone : Option String
  deriving DecidableEq, Repr

/-- Embedding of the `EC2Endpoint` struct (clients omitted; `inst` is the
`Instance` pointer filled in by `getEC2Instance`). -/
structure EC2Endpoint where
  instanceId : String
  port : Int
  user : String
  privateKey : String
  publicKey : String
  usePrivate : Bool
  inst : Instance
  deriving DecidableEq, Repr

/-- What the `SendSSHPublicKey` API call came back with: a throttling-class
error, some other transport error, or a response with its `Success` flag and
request id. -/
inductive SendKeyCallResult
  | throttlingErr
  | otherErr (msg : String)
  | response (success : Bool) (requestId : Option String)
  deriving DecidableEq, Repr

/-- Embedding of `sendPublicKey` (ec2endpoint.go:92-116): `none` models a nil
error, `some msg` the returned error. -/
def sendPublicKey : SendKeyCallResult → Option String
  | .throttlingErr => none
  | .otherErr m => some ("send public key error: " ++ m)
  | .response true _ => none
  | .response false rid =>
    some ("request failed but no error was returned. Request ID: " ++ awsToString rid)

/-- Side effects performed during `EC2Endpoint.String`: the key push to
(availability zone, instance id, OS user) with the endpoint's public key. -/
inductive ResolveEvent
  | keyPush (az : Option String) (instId : Option String) (user : String)
      (publicKey : String)
  deriving DecidableEq, Repr

/-- Outcome of `EC2Endpoint.String`: `log.Fatal` on a key-push error
(terminating the process), or the returned address. -/
inductive StringOutcome
  | fatal (msg : String)
  | addr (a : String)
  deriving DecidableEq, Repr

/-- Embedding of `EC2Endpoint.String` (ec2endpoint.go:65-75).  The key-push
call result is a parameter; the trace of provisioning events performed is
returned alongside the outcome. -/
def EC2Endpoint.String (e : EC2Endpoint) (res : SendKeyCallResult) :
    List ResolveEvent × StringOutcome :=
  let ev := ResolveEvent.keyPush e.inst.availabilityZone e.inst.instanceId
    e.user e.publicKey
  match sendPublicKey res with
  | some m => ([ev], .fatal m)
  | none =>
    if e.usePrivate then
      ([ev], .addr (awsToString e.inst.privateIpAddress ++ ":" ++ toString e.port))
    else
      ([ev], .addr (awsToString e.inst.publicIpAddress ++ ":" ++ toString e.port))

/-- Embedding of the parsing + construction logic of `NewEC2Endpoint`
(ec2endpoint.go:32-63).  Key generation and the instance lookup are passed in
as the results those calls would produce. -/
def NewEC2Endpoint (inputId : String)
    (keygen : Except String (String × String))
    (lookup : Except String Instance) : Except String EC2Endpoint :=
  let user := "ec2-user"
  let id := inputId
  let userId : String × String :=
    match goSplit '@' id with
    | p0 :: p1 :: _ => (p0, p1)
    | _ => (user, id)
  let idPort : String × Int :=
    match goSplit ':' userId.2 with
    | q0 :: q1 :: _ => (q0, goAtoi q1)
    | _ => (userId.2, 22)
  match keygen with
  | .error e => .error e
  | .ok (priv, pub) =>
    match lookup with
    | .error e => .error e
    | .ok inst =>
      .ok { instanceId := idPort.1, port := idPort.2, user := userId.1,
            privateKey := priv, publicKey := pub, usePrivate := false,
            inst := inst }

/-! ## Claims C2, C7, C8 -/

/-- Claim C2: a throttling-class failure of the key-push call is reported as
success (`sendPublicKey` returns nil) and address resolution proceeds to
return an address; any other failure of the call yields a provisioning error
and `EC2Endpoint.String` aborts with it. -/
theorem C2_theorem (e : EC2Endpoint) (m : String) :
    sendPublicKey SendKeyCallResult.throttlingErr = none
    ∧ (∃ a, (EC2Endpoint.String e SendKeyCallResult.throttlingErr).2 =
        StringOutcome.addr a)
    ∧ sendPublicKey (SendKeyCallResult.otherErr m) =
        some ("send public key error: " ++ m)
    ∧ (EC2Endpoint.String e (SendKeyCallResult.otherErr m)).2 =
        StringOutcome.fatal ("send public key error: " ++ m) := by
  refine ⟨rfl, ?_, rfl, rfl⟩
  by_cases h : e.usePrivate
  · exact ⟨awsToString e.inst.privateIpAddress ++ ":" ++ toString e.port,
      by simp [EC2Endpoint.String, sendPublicKey, h]⟩
  · exact ⟨awsToString e.inst.publicIpAddress ++ ":" ++ toString e.port,
      by simp [EC2Endpoint.String, sendPublicKey, h]⟩

/-- Claim C7: every call of the address-resolution operation pushes the
endpoint's public key (scoped to availability zone, instance id, OS user)
exactly once, before anything else; and when the push step succeeds, the
returned address is the private address combined with the endpoint's port if
`usePrivate` is set, else the public address with the port. -/
theorem C7_theorem (e : EC2Endpoint) (res : SendKeyCallResult) :
    ((EC2Endpoint.String e res).1 =
      [ResolveEvent.keyPush e.inst.availabilityZone e.inst.instanceId e.user
        e.publicKey])
    ∧ (sendPublicKey res = none →
      (EC2Endpoint.String e res).2 = StringOutcome.addr
        ((if e.usePrivate then awsToString e.inst.privateIpAddress
          else awsToString e.inst.publicIpAddress) ++ ":" ++ toString e.port)) := by
  constructor
  · cases hsp : sendPublicKey res
    · by_cases h : e.usePrivate <;> simp [EC2Endpoint.String, hsp, h]
    · simp [EC2Endpoint.String, hsp]
  · intro hn
    by_cases h : e.usePrivate <;> simp [EC2Endpoint.String, hn, h]

/-- Concrete endpoint used to witness claim C7. -/
def eC7 : EC2Endpoint :=
  { instanceId := "i-07", port := 22, user := "ec2-user", privateKey := "pk",
    publicKey := "pub7", usePrivate := true,
    inst := ⟨some "i-07", some "10.0.0.5", some "3.3.3.3", some "eu-west-1a"⟩ }

/-- Claim C7, witness: concrete resolution pushing the key and returning the
private address. -/
theorem C7_witness :
    (EC2Endpoint.String eC7 (SendKeyCallResult.response true none)).1 =
      [ResolveEvent.keyPush (some "eu-west-1a") (some "i-07") "ec2-user" "pub7"]
    ∧ (EC2Endpoint.String eC7 (SendKeyCallResult.response true none)).2 =
      StringOutcome.addr "10.0.0.5:22" := by
  have h := C7_theorem eC7 (SendKeyCallResult.response true none)
  exact ⟨h.1, (h.2 rfl).trans (by decide)⟩

/-- Instance record with no populated fields, used for parsing scenarios. -/
def dummyInstance : Instance := ⟨none, none, none, none⟩

/-- Claim C8: `NewEC2Endpoint` parses `"ec2-user@i-0123:2222"` to user
`ec2-user`, instance id `i-0123`, port 2222, and `"i-0123"` to the default
user `ec2-user`, id `i-0123` and default port 22. -/
theorem C8_theorem :
    NewEC2Endpoint "ec2-user@i-0123:2222" (Except.ok ("priv", "pub"))
        (Except.ok dummyInstance) =
      Except.ok ⟨"i-0123", 2222, "ec2-user", "priv", "pub", false, dummyInstance⟩
    ∧ NewEC2Endpoint "i-0123" (Except.ok ("priv", "pub"))
        (Except.ok dummyInstance) =
      Except.ok ⟨"i-0123", 22, "ec2-user", "priv", "pub", false, dummyInstance⟩ := by
  exact ⟨rfl, rfl⟩

/-! ## Connection chain builder (`pkg/sshutils/connect.go`, `Connect`)

`Connect` sees each endpoint only through the `EndpointIface` interface:
`String()` (resolve the address) and `GetSSHConfig()`.  An `EndpointModel`
records what those calls return for one endpoint, together with how the
network behaves at that hop: whether the transport dial and the SSH handshake
to it fail.  For the first hop `ssh.Dial` performs dial plus handshake and
reports one error; for later hops `client.Dial` and `ssh.NewClientConn` are
separate calls with separate error wrappings. -/

/-- One endpoint as `Connect` sees it, with its hop's network behaviour. -/
structure EndpointModel where
  addr : String
  cfg : String
  cfgErr : Option String
  dialErr : Option String
  handshakeErr : Option String
  deriving DecidableEq, Repr

/-- A connection operation performed by `Connect`: a direct dial+handshake
(first hop) or a nested dial+handshake through the previous client, each
recording the address dialed and the auth config used. -/
inductive ConnEvent
  | direct (addr cfg : String)
  | nested (addr cfg : String)
  deriving DecidableEq, Repr

/-- How the chain-building loop of `Connect` ends: all hops established, an
error returned, or the `return nil` taken on a `GetSSHConfig` failure. -/
inductive ChainResult
  | done
  | errRet (msg : String)
  | nilRet
  deriving DecidableEq, Repr

/-- Embedding of the loop of `Connect` (connect.go:306-335).  `haveClient`
models `client != nil`.  Returns the operations performed and how the loop
ended. -/
def connectChain (haveClient : Bool) :
    List EndpointModel → List ConnEvent × ChainResult
  | [] => ([], .done)
  | ep :: rest =>
    match ep.cfgErr with
    | some _ => ([], .nilRet)
    | none =>
      if haveClient then
        match ep.dialErr with
        | some e => ([.nested ep.addr ep.cfg], .errRet ("failed to dial: " ++ e))
        | none =>
          match ep.handshakeErr with
          | some e => ([.nested ep.addr ep.cfg],
              .errRet ("failed to create new ssh connection to " ++ ep.addr ++ ": " ++ e))
          | none =>
            let r := connectChain true rest
            (.nested ep.addr ep.cfg :: r.1, r.2)
      else
        match ep.dialErr with
        | some e => ([.direct ep.addr ep.cfg], .errRet ("failed to dial: " ++ e))
        | none =>
          match ep.handshakeErr with
          | some e => ([.direct ep.addr ep.cfg], .errRet ("failed to dial: " ++ e))
          | none =>
            let r := connectChain true rest
            (.direct ep.addr ep.cfg :: r.1, r.2)

/-- The operations `Connect` performs over a list of hops when none of them
fails early. -/
def chainEvents (haveClient : Bool) : List EndpointModel → List ConnEvent
  | [] => []
  | ep :: rest =>
    (if haveClient then ConnEvent.nested ep.addr ep.cfg
     else ConnEvent.direct ep.addr ep.cfg) :: chainEvents true rest

/-- A hop at which every call succeeds. -/
def epOk (ep : EndpointModel) : Prop :=
  ep.cfgErr = none ∧ ep.dialErr = none ∧ ep.handshakeErr = none

instance (ep : EndpointModel) : Decidable (epOk ep) := by
  unfold epOk; infer_instance

/-! ## Interactive session phase of `Connect` (connect.go:337-380) -/

/-- What `sess.Wait()` returns: nil, an `ssh.ExitError` carrying the remote
shell's exit status, or some other error. -/
inductive WaitRes
  | clean
  | exitErr (status : Nat)
  | failed (msg : String)
  deriving DecidableEq, Repr

/-- Environment of one session run: results of the terminal and session
calls the code makes. -/
structure SessionEnv where
  newSessionErr : Option String
  isTerminal : Bool
  makeRawFails : Bool
  getSizeErr : Option String
  termWidth : Nat
  termHeight : Nat
  requestPtyErr : Option String
  shellFails : Bool
  waitRes : WaitRes
  deriving DecidableEq, Repr

/-- How `Connect` leaves the process: a returned nil error, a returned error,
a returned `ssh.ExitError` from `sess.Wait`, or a direct `os.Exit` from
inside the function (which skips deferred calls). -/
inductive GoResult
  | retNil
  | retErr (msg : String)
  | retExit (status : Nat)
  | procExit (code : Nat)
  deriving DecidableEq, Repr

/-- Terminal-side effects of the session: whether raw mode was entered,
whether and with which (height, width) a PTY was requested, and whether the
original terminal state was restored by the deferred `term.Restore`. -/
structure TermState where
  rawEntered : Bool
  ptyReq : Option (Nat × Nat)
  restored : Bool
  deriving DecidableEq, Repr

/-- Embedding of the session phase of `Connect` (connect.go:337-380), entered
once the whole chain is built.  `term.Restore` is deferred right after a
successful `term.MakeRaw`, so it runs on every *return* path after that
point, but not on the `os.Exit(1)` path taken when `sess.Shell()` fails. -/
def sessionPhase (env : SessionEnv) : GoResult × TermState :=
  match env.newSessionErr with
  | some e => (.retErr ("failed to create new session: " ++ e), ⟨false, none, false⟩)
  | none =>
    if env.isTerminal then
      if env.makeRawFails then
        (.retNil, ⟨false, none, false⟩)
      else
        match env.getSizeErr with
        | some e => (.retErr e, ⟨true, none, true⟩)
        | none =>
          match env.requestPtyErr with
          | some e => (.retErr e, ⟨true, some (env.termHeight, env.termWidth), true⟩)
          | none =>
            if env.shellFails then
              (.procExit 1, ⟨true, some (env.termHeight, env.termWidth), false⟩)
            else
              match env.waitRes with
              | .clean => (.retNil, ⟨true, some (env.termHeight, env.termWidth), true⟩)
              | .exitErr c => (.retExit c, ⟨true, some (env.termHeight, env.termWidth), true⟩)
              | .failed m => (.retErr m, ⟨true, some (env.termHeight, env.termWidth), true⟩)
    else
      if env.shellFails then
        (.procExit 1, ⟨false, none, false⟩)
      else
        match env.waitRes with
        | .clean => (.retNil, ⟨false, none, false⟩)
        | .exitErr c => (.retExit c, ⟨false, none, false⟩)
        | .failed m => (.retErr m, ⟨false, none, false⟩)

/-- Whether a `GoResult` is a direct `os.Exit` rather than a return. -/
def isProcExit : GoResult → Bool
  | .procExit _ => true
  | _ => false

/-- Embedding of all of `Connect`: chain loop, then (only when every hop was
established) the session phase. -/
def ConnectGo (eps : List EndpointModel) (env : SessionEnv) : GoResult :=
  match connectChain false eps with
  | (_, .errRet m) => .retErr m
  | (_, .nilRet) => .retNil
  | (_, .done) => (sessionPhase env).1

/-- Embedding of the exit-status mapping of `main` (main.go:78-86): nil error
exits 0, an `ssh.ExitError` exits with the remote shell's status, any other
error exits 1; an `os.Exit` inside `Connect` keeps its code. -/
def mainExit : GoResult → Nat
  | .retNil => 0
  | .retErr _ => 1
  | .retExit c => c
  | .procExit c => c

/-! ## Helper lemmas about the chain loop -/

/-- Processing a run of fully succeeding hops performs exactly their events
and continues, with a client established whenever the run was non-empty. -/
theorem connectChain_ok_append (rest : List EndpointModel) :
    ∀ (l : List EndpointModel) (hc : Bool), (∀ x ∈ l, epOk x) →
    connectChain hc (l ++ rest) =
      (chainEvents hc l ++ (connectChain (hc || !l.isEmpty) rest).1,
       (connectChain (hc || !l.isEmpty) rest).2) := by
  intro l
  induction l with
  | nil => intro hc _; simp [chainEvents]
  | cons ep tl ih =>
    intro hc hall
    obtain ⟨h1, h2, h3⟩ := hall ep (List.mem_cons_self _ _)
    have htl := fun x hx => hall x (List.mem_cons_of_mem _ hx)
    cases hc <;>
      simp [connectChain, h1, h2, h3, ih true htl, chainEvents]

/-- The tail events of a successful chain are one nested operation per hop. -/
theorem chainEvents_true_eq_map (l : List EndpointModel) :
    chainEvents true l = l.map (fun x => ConnEvent.nested x.addr x.cfg) := by
  induction l with
  | nil => rfl
  | cons a t ih => simp [chainEvents, ih]

/-- Appending one hop to the event list of a successful run. -/
theorem chainEvents_append_one (ep : EndpointModel) :
    ∀ (l : List EndpointModel) (hc : Bool),
    chainEvents hc (l ++ [ep]) =
      chainEvents hc l ++
        [if (hc || !l.isEmpty) then ConnEvent.nested ep.addr ep.cfg
         else ConnEvent.direct ep.addr ep.cfg] := by
  intro l
  induction l with
  | nil => intro hc; cases hc <;> simp [chainEvents]
  | cons x t ih => intro hc; cases hc <;> simp [chainEvents, ih true]

/-- A hop whose config call succeeds but whose dial or handshake fails makes
the loop return an error right there, after attempting that hop only. -/
theorem connectChain_fail_step (hc : Bool) (ep : EndpointModel)
    (post : List EndpointModel) (hcfg : ep.cfgErr = none)
    (hfail : ep.dialErr.isSome ∨ ep.handshakeErr.isSome) :
    ∃ m, connectChain hc (ep :: post) =
      ([if hc then ConnEvent.nested ep.addr ep.cfg
        else ConnEvent.direct ep.addr ep.cfg], ChainResult.errRet m) := by
  cases hd : ep.dialErr with
  | some e =>
    cases hc
    · exact ⟨"failed to dial: " ++ e, by simp [connectChain, hcfg, hd]⟩
    · exact ⟨"failed to dial: " ++ e, by simp [connectChain, hcfg, hd]⟩
  | none =>
    cases hh : ep.handshakeErr with
    | some e =>
      cases hc
      · exact ⟨"failed to dial: " ++ e, by simp [connectChain, hcfg, hd, hh]⟩
      · exact ⟨"failed to create new ssh connection to " ++ ep.addr ++ ": " ++ e,
          by simp [connectChain, hcfg, hd, hh]⟩
    | none =>
      rcases hfail with h | h
      · rw [hd] at h; exact absurd h (by simp)
      · rw [hh] at h; exact absurd h (by simp)

/-! ## Substring containment lemmas (for "annotated with the address") -/

/-- A list starts with itself followed by anything. -/
theorem startsSub_self_append (sub rest : List Char) :
    startsSub sub (sub ++ rest) = true := by
  induction sub with
  | nil => rfl
  | cons c t ih => simp [startsSub, ih]

/-- A list that starts with `sub` contains `sub`. -/
theorem hasSub_of_startsSub (sub l : List Char) (h : startsSub sub l = true) :
    hasSub sub l = true := by
  cases l with
  | nil =>
    cases sub with
    | nil => rfl
    | cons a as => simp [startsSub] at h
  | cons c rest => simp [hasSub, h]

/-- `sub` occurs in `a ++ (sub ++ tail)`. -/
theorem hasSub_append (sub a tail : List Char) :
    hasSub sub (a ++ (sub ++ tail)) = true := by
  induction a with
  | nil => exact hasSub_of_startsSub _ _ (startsSub_self_append sub tail)
  | cons x t ih => simp [hasSub, ih]

/-- A string of the form `p ++ (b ++ tail)` contains `b`. -/
theorem strContains_mid (p b tail : String) :
    strContains (p ++ (b ++ tail)) b = true := by
  show hasSub b.data (p ++ (b ++ tail)).data = true
  rw [String.data_append, String.data_append]
  exact hasSub_append _ _ _

/-! ## Claims C3, C4, C5, C9 -/

/-- Claim C3: for a chain of N ≥ 1 endpoints in which every hop succeeds,
`Connect` performs exactly one direct dial+handshake, at the first endpoint's
own address with its own config, followed by exactly one nested
dial+handshake per remaining endpoint, each at that endpoint's own address
with its own config, and the loop completes. -/
theorem C3_theorem (e : EndpointModel) (rest : List EndpointModel)
    (h : ∀ x ∈ e :: rest, epOk x) :
    connectChain false (e :: rest) =
      (ConnEvent.direct e.addr e.cfg ::
        rest.map (fun x => ConnEvent.nested x.addr x.cfg), ChainResult.done) := by
  obtain ⟨h1, h2, h3⟩ := h e (List.mem_cons_self _ _)
  have htl := fun x hx => h x (List.mem_cons_of_mem _ hx)
  have happ := connectChain_ok_append [] rest true htl
  simp only [List.append_nil] at happ
  simp [connectChain, h1, h2, h3, happ, chainEvents_true_eq_map, connectChain]

/-- Chain hops used to witness claims C3 and C4. -/
def epA : EndpointModel := ⟨"3.3.3.3:22", "keyA", none, none, none⟩

/-- Second hop of the witness chains, succeeding for C3. -/
def epB : EndpointModel := ⟨"10.0.0.7:22", "keyB", none, none, none⟩

/-- Claim C3, witness: a concrete two-hop chain. -/
theorem C3_witness :
    connectChain false [epA, epB] =
      ([ConnEvent.direct "3.3.3.3:22" "keyA",
        ConnEvent.nested "10.0.0.7:22" "keyB"], ChainResult.done) :=
  (C3_theorem epA [epB] (by decide)).trans (by decide)

/-- Claim C4 (amended): if the dial or handshake at hop i fails (its config
call having succeeded, all earlier hops fine), `Connect` returns an error
immediately — hops after i are never attempted and no session phase runs —
and when the failure is a *nested handshake* the error message is annotated
with hop i's address; dial failures are wrapped as `failed to dial: <err>`
with no address added by `Connect` itself. -/
theorem C4_theorem (pre : List EndpointModel) (ep : EndpointModel)
    (post : List EndpointModel) (hpre : ∀ x ∈ pre, epOk x)
    (hcfg : ep.cfgErr = none)
    (hfail : ep.dialErr.isSome ∨ ep.handshakeErr.isSome) :
    (∃ m, connectChain false (pre ++ ep :: post) =
      (chainEvents false (pre ++ [ep]), ChainResult.errRet m))
    ∧ (∀ e, pre ≠ [] → ep.dialErr = none → ep.handshakeErr = some e →
      (connectChain false (pre ++ ep :: post)).2 =
        ChainResult.errRet
          ("failed to create new ssh connection to " ++ ep.addr ++ ": " ++ e)
      ∧ strContains
          ("failed to create new ssh connection to " ++ ep.addr ++ ": " ++ e)
          ep.addr = true) := by
  have happ := connectChain_ok_append (ep :: post) pre false hpre
  constructor
  · obtain ⟨m, hm⟩ :=
      connectChain_fail_step (false || !pre.isEmpty) ep post hcfg hfail
    refine ⟨m, ?_⟩
    rw [happ, hm, chainEvents_append_one ep pre false]
  · intro e hpe hd hh
    have hne : pre.isEmpty = false := by
      cases pre with
      | nil => exact absurd rfl hpe
      | cons a t => rfl
    have hstep : connectChain (false || !pre.isEmpty) (ep :: post) =
        ([ConnEvent.nested ep.addr ep.cfg],
         ChainResult.errRet
           ("failed to create new ssh connection to " ++ ep.addr ++ ": " ++ e)) := by
      rw [hne]
      simp [connectChain, hcfg, hd, hh]
    constructor
    · rw [happ, hstep]
    · have : ("failed to create new ssh connection to " ++ ep.addr ++ ": " ++ e) =
          "failed to create new ssh connection to " ++ (ep.addr ++ (": " ++ e)) := by
        rw [String.append_assoc, String.append_assoc]
      rw [this]
      exact strContains_mid _ _ _

/-- Second hop of the C4 witness chain, failing its nested handshake. -/
def epB' : EndpointModel := ⟨"10.0.0.7:22", "keyB", none, none, some "auth failed"⟩

/-- Claim C4, witness: a nested handshake failure at hop 2 of a concrete
chain aborts the loop with an error annotated with hop 2's address, and
hop 3 is never attempted. -/
theorem C4_witness :
    (∃ m, connectChain false [epA, epB', epA] =
      (chainEvents false [epA, epB'], ChainResult.errRet m))
    ∧ (connectChain false [epA, epB', epA]).2 =
        ChainResult.errRet
          "failed to create new ssh connection to 10.0.0.7:22: auth failed"
    ∧ strContains "failed to create new ssh connection to 10.0.0.7:22: auth failed"
        "10.0.0.7:22" = true := by
  have h := C4_theorem [epA] epB' [epA] (by decide) rfl (Or.inr rfl)
  have h2 := h.2 "auth failed" (by simp) rfl rfl
  exact ⟨h.1, h2.1, h2.2⟩

/-- Hop that fails its direct dial, used against claim C4 as stated. -/
def epC4 : EndpointModel := ⟨"10.1.2.3:22", "key0", none, some "boom", none⟩

/-- Claim C4, counterexample: a dial failure at hop 1 returns the error
`failed to dial: boom`, which is not annotated with the hop's address
`10.1.2.3:22`, contradicting the claim that every dial/handshake failure is
annotated with the failing hop's address. -/
theorem C4_counterexample :
    connectChain false [epC4] =
      ([ConnEvent.direct "10.1.2.3:22" "key0"],
       ChainResult.errRet "failed to dial: boom")
    ∧ strContains "failed to dial: boom" "10.1.2.3:22" = false := by
  exact ⟨rfl, rfl⟩

/-- Hop whose `GetSSHConfig` call fails, exposing the C5 bug. -/
def epBadCfg : EndpointModel :=
  ⟨"10.9.9.9:22", "keyC", some "ssh: no key found", none, none⟩

/-- Session environment with no terminal and a clean shell exit. -/
def envClean : SessionEnv :=
  ⟨none, false, false, none, 80, 24, none, false, WaitRes.clean⟩

/-- Claim C5, code-bug evidence: when an endpoint's SSH auth config cannot be
built, `Connect` takes the `return nil` branch, so the run returns a nil
error and the process exits 0 — contradicting the claim that every core
failure (including auth-config construction) exits non-zero. -/
theorem C5_theorem :
    ConnectGo [epBadCfg] envClean = GoResult.retNil
    ∧ mainExit (ConnectGo [epBadCfg] envClean) = 0 := by
  exact ⟨rfl, rfl⟩

/-- Session environment whose shell start fails on a terminal, used against
claim C9 as stated. -/
def envC9 : SessionEnv :=
  ⟨none, true, false, none, 80, 24, none, true, WaitRes.clean⟩

/-- Claim C9, counterexample: with stdin a terminal, raw mode entered and the
PTY granted, a shell-start failure takes the `os.Exit(1)` path, which skips
the deferred `term.Restore` — so there is an exit path of the session on
which the terminal state is not restored, contradicting the claim. -/
theorem C9_counterexample :
    (sessionPhase envC9).2.rawEntered = true
    ∧ (sessionPhase envC9).1 = GoResult.procExit 1
    ∧ (sessionPhase envC9).2.restored = false := by
  exact ⟨rfl, rfl, rfl⟩

/-- Claim C9 (amended): when stdin is not a terminal, no raw-mode switch and
no PTY request happen; when stdin is a terminal and the raw-mode switch,
size query and PTY request succeed, a PTY sized to the current terminal
dimensions is requested before the shell starts; and whenever raw mode was
entered, the terminal is restored exactly on the *return* exit paths — the
shell-start-failure path exits the process directly without restoring. -/
theorem C9_theorem (env : SessionEnv) :
    (env.isTerminal = false →
      (sessionPhase env).2.rawEntered = false
      ∧ (sessionPhase env).2.ptyReq = none)
    ∧ (env.isTerminal = true → env.newSessionErr = none →
       env.makeRawFails = false → env.getSizeErr = none →
       env.requestPtyErr = none →
      (sessionPhase env).2.rawEntered = true
      ∧ (sessionPhase env).2.ptyReq = some (env.termHeight, env.termWidth))
    ∧ ((sessionPhase env).2.rawEntered = true →
      (sessionPhase env).2.restored = !(isProcExit (sessionPhase env).1)) := by
  obtain ⟨ns, it, mr, gs, tw, th, rp, sf, wr⟩ := env
  refine ⟨?_, ?_, ?_⟩
  · intro h
    simp only at h
    subst h
    cases ns <;> cases sf <;> cases wr <;> simp [sessionPhase]
  · intro h1 h2 h3 h4 h5
    simp only at h1 h2 h3 h4 h5
    subst h1; subst h2; subst h3; subst h4; subst h5
    cases sf <;> cases wr <;> simp [sessionPhase]
  · cases ns <;> cases it <;> cases mr <;> cases gs <;> cases rp <;>
      cases sf <;> cases wr <;> simp [sessionPhase, isProcExit]

/-- Session environment for the C9 witness: terminal present, everything
succeeds. -/
def envC9w : SessionEnv :=
  ⟨none, true, false, none, 80, 24, none, false, WaitRes.clean⟩

/-- Claim C9, witness for the amended theorem at a concrete environment. -/
theorem C9_witness :
    (sessionPhase envC9w).2.rawEntered = true
    ∧ (sessionPhase envC9w).2.ptyReq = some (24, 80)
    ∧ (sessionPhase envC9w).2.restored = !(isProcExit (sessionPhase envC9w).1) := by
  have h := C9_theorem envC9w
  have h2 := h.2.1 rfl rfl rfl rfl rfl
  exact ⟨h2.1, h2.2, h.2.2 h2.1⟩

/-! ## Tunnel forwarder (`pkg/sshutils/connect.go`, `Tunnel` and `forward`)

`Tunnel` accepts local connections in a loop and hands each one to its own
`forward` goroutine; `forward` shares no mutable state with the loop or with
other connections, so each spawned goroutine is modelled as an independent
evaluation of `forward` on that connection's own environment.  The accept
loop itself only ends when `Accept` (or the initial `Listen`) errors. -/

/-- How the network behaves for one accepted connection: results of
`GetSSHConfig`, the fresh `ssh.Dial` to the bastion, the channel open
(`serverConn.Dial`) to the remote target, and the two byte copies. -/
structure ForwardEnv where
  cfgErr : Option String
  sshDialErr : Option String
  remoteDialErr : Option String
  copyOutErr : Option String
  copyInErr : Option String
  deriving DecidableEq, Repr

/-- Steps performed by one `forward` invocation.  `logged` models a
`slog.Error` call; errors are only ever logged, never propagated. -/
inductive FwdEvent
  | logged (msg : String)
  | sshDial (addr : String)
  | remoteDial (addr : String)
  | copyBoth
  deriving DecidableEq, Repr

/-- Embedding of `forward` (connect.go:276-304).  Note the fidelity to the
source: a `GetSSHConfig` error is logged but does **not** return, the
`ssh.Dial` is fresh per invocation, and every failure ends only this
invocation. -/
def forward (remoteAddr bastionAddr : String) (env : ForwardEnv) :
    List FwdEvent :=
  (match env.cfgErr with
   | some m => [FwdEvent.logged m]
   | none => [])
  ++ [FwdEvent.sshDial bastionAddr]
  ++ (match env.sshDialErr with
      | some m => [FwdEvent.logged m]
      | none =>
        [FwdEvent.remoteDial remoteAddr]
        ++ (match env.remoteDialErr with
            | some m => [FwdEvent.logged m]
            | none =>
              [FwdEvent.copyBoth]
              ++ (match env.copyOutErr with
                  | some m => [FwdEvent.logged m]
                  | none => [])
              ++ (match env.copyInErr with
                  | some m => [FwdEvent.logged m]
                  | none => [])))

/-- Embedding of `Tunnel` (connect.go:257-274): the listener either fails to
bind, or every accepted connection is handed to its own `forward` and the
loop finally returns the accept error.  The result pairs the per-connection
traces with `Tunnel`'s returned error. -/
def Tunnel (remoteAddr bastionAddr : String) (listenErr : Option String)
    (conns : List ForwardEnv) (acceptErr : String) :
    List (List FwdEvent) × Except String Unit :=
  match listenErr with
  | some e => ([], .error e)
  | none => (conns.map (forward remoteAddr bastionAddr), .error acceptErr)

/-- Number of fresh upstream SSH dial/handshake attempts in a trace. -/
def countSshDials (evs : List FwdEvent) : Nat :=
  evs.countP fun e =>
    match e with
    | .sshDial _ => true
    | _ => false

/-- Claim C6: every accepted connection gets its own `forward` run with
exactly one fresh upstream dial/handshake (K connections, K handshakes);
connection j's trace is a function of connection j's environment alone — in
particular changing (or failing) any other connection leaves it unchanged —
and the accept loop's outcome is the accept error regardless of any
per-connection failures. -/
theorem C6_theorem (remoteAddr bastionAddr : String)
    (conns : List ForwardEnv) (acceptErr : String) (i j : Nat)
    (env' : ForwardEnv) (hij : i ≠ j) :
    (Tunnel remoteAddr bastionAddr none conns acceptErr).1.length = conns.length
    ∧ (∀ k : Nat, (Tunnel remoteAddr bastionAddr none conns acceptErr).1[k]? =
        (conns[k]?).map (forward remoteAddr bastionAddr))
    ∧ (∀ env, countSshDials (forward remoteAddr bastionAddr env) = 1)
    ∧ (Tunnel remoteAddr bastionAddr none conns acceptErr).2 =
        Except.error acceptErr
    ∧ (Tunnel remoteAddr bastionAddr none (conns.set i env') acceptErr).1[j]? =
        (Tunnel remoteAddr bastionAddr none conns acceptErr).1[j]? := by
  refine ⟨by simp [Tunnel], ?_, ?_, rfl, ?_⟩
  · intro k
    simp [Tunnel]
  · intro env
    obtain ⟨c, s, r, co, ci⟩ := env
    cases c <;> cases s <;> cases r <;> cases co <;> cases ci <;>
      simp [forward, countSshDials]
  · simp only [Tunnel, List.getElem?_map]
    rw [List.getElem?_set_ne hij]

/-- Claim C6, witness: two concrete connections, the first failing its dial,
the second succeeding — each performs its own single upstream handshake and
the failure of the first leaves the second's trace and the loop unchanged. -/
theorem C6_witness :
    (Tunnel "db:5432" "3.3.3.3:22" none
      [ForwardEnv.mk none (some "conn refused") none none none,
       ForwardEnv.mk none none none none none] "accept closed").1.length = 2
    ∧ (Tunnel "db:5432" "3.3.3.3:22" none
      [ForwardEnv.mk none (some "conn refused") none none none,
       ForwardEnv.mk none none none none none] "accept closed").2 =
        Except.error "accept closed"
    ∧ (Tunnel "db:5432" "3.3.3.3:22" none
      ([ForwardEnv.mk none none none none none].set 0
        (ForwardEnv.mk none (some "conn refused") none none none))
      "accept closed").1[1]? =
      (Tunnel "db:5432" "3.3.3.3:22" none
        [ForwardEnv.mk none none none none none] "accept closed").1[1]? := by
  have h := C6_theorem "db:5432" "3.3.3.3:22"
    [ForwardEnv.mk none (some "conn refused") none none none,
     ForwardEnv.mk none none none none none] "accept closed" 0 1
    (ForwardEnv.mk none (some "conn refused") none none none) (by decide)
  refine ⟨h.1, h.2.2.2.1, ?_⟩
  have h' := C6_theorem "db:5432" "3.3.3.3:22"
    [ForwardEnv.mk none none none none none] "accept closed" 0 1
    (ForwardEnv.mk none (some "conn refused") none none none) (by decide)
  exact h'.2.2.2.2

end AmzSsh
